import Mathlib

/-!
Shallow embedding of the `snew` Reddit client library (src/auth.rs, src/things.rs).

External collaborators (the HTTP transport `reqwest`, the JSON codec `serde_json`)
are modelled as oracle parameters: each network call or decode attempt is an
explicit input describing the external outcome, and the embedded functions
reproduce the Rust control flow over those outcomes.  Mutable state (`&mut self`,
the mutex-guarded shared client) is threaded explicitly.
-/

namespace Snew

/-- An access token (struct `Token` in auth.rs). -/
structure Token where
  access_token : String
  expires_in : Int
  scope : String
  token_type : String
deriving DecidableEq, Repr

/-- Modelled from the spec: the error taxonomy of `crate::reddit::Error`
(reddit.rs is not under src/; §7 of the spec lists transport errors,
authentication errors carrying a diagnostic string, and decode errors).
The payloads of transport and decode errors are kept as opaque strings. -/
inductive Error where
  | RequestError (e : String)
  | APIParseError (e : String)
  | AuthenticationError (msg : String)
deriving DecidableEq, Repr

/-- Model of a `reqwest::blocking::Client`: the user agent and the default
`Authorization` header value installed by `make_client` (auth.rs lines 143-157). -/
structure Client where
  user_agent : String
  bearer : String
deriving DecidableEq, Repr

/-- Model of a `reqwest::blocking::Response`: the pieces the code inspects. -/
structure Response where
  status : Nat
  body : String
deriving DecidableEq, Repr

/-- Embeds `AuthenticatedClient::make_client` (auth.rs lines 143-157): builds a client
whose default headers carry `bearer <access_token>` and the given user agent.
(Header-value validation by reqwest is out of scope; it is modelled as total.) -/
def make_client (user_agent access_token : String) : Client :=
  { user_agent := user_agent, bearer := "bearer " ++ access_token }

/-- Embeds `AuthenticatedClient::check_auth` (auth.rs lines 127-140): 200 is success,
401/403 an authentication challenge, anything else an error naming the code.
(Rust displays a `StatusCode` with its reason phrase; the model keeps the
numeric code, which is the part the claims depend on.) -/
def check_auth (response : Response) : Except Error Bool :=
  if response.status == 200 then
    Except.ok true
  else if response.status == 403 || response.status == 401 then
    Except.ok false
  else
    Except.error (Error.AuthenticationError
      ("Reddit returned an unexpected code: " ++ toString response.status))

/-- The `Authenticator` trait (auth.rs lines 13-31) over a state type `α`:
`login` mutates the state and may fail, `token` reads the current token. -/
structure Authenticator (α : Type) where
  login : α → Except Error Unit × α
  token : α → Option Token
  is_user : α → Bool

/-- Embeds `AuthenticatedClient` (auth.rs lines 44-49): the mutex-guarded shared
transport and authenticator state, plus the user agent.  Lock acquisition is
modelled away (single-threaded interleaving); the fields are the guarded values. -/
structure AuthenticatedClient (α : Type) where
  client : Client
  authenticator : α
  user_agent : String

/-- One GET issued against the transport, as recorded in the interaction trace:
which client instance issued it, to which url, with which query pairs. -/
structure HttpCall where
  client : Client
  url : String
  queries : Option (List (String × String))
deriving DecidableEq, Repr

/-- Embeds `AuthenticatedClient::new` (auth.rs lines 52-66): perform an initial login;
propagate its error; if the authenticator then has no token, fail with the
defensive authentication error; otherwise build the client from the token. -/
def AuthenticatedClient.new (A : Authenticator α) (authenticator : α)
    (user_agent : String) : Except Error (AuthenticatedClient α) :=
  match A.login authenticator with
  | (Except.error e, _) => Except.error e
  | (Except.ok _, auth1) =>
    match A.token auth1 with
    | some token =>
      Except.ok { client := make_client user_agent token.access_token,
                  authenticator := auth1, user_agent := user_agent }
    | none =>
      Except.error (Error.AuthenticationError
        "Token was not set after logging in, but no error was returned. Report bug at https://github.com/Zower/snew")

/-- Embeds `AuthenticatedClient::get` (auth.rs lines 70-110).  `http` is the transport
oracle: given the client issuing the request, the url and the queries, it
returns the transport outcome (`Except.error` models a reqwest error, which
`make_request` converts into `Error.RequestError`).  Returns the call result,
the state after the call, and the trace of GETs actually issued. -/
def AuthenticatedClient.get (A : Authenticator α)
    (http : Client → String → Option (List (String × String)) → Except String Response)
    (self : AuthenticatedClient α) (url : String)
    (queries : Option (List (String × String))) :
    Except Error Response × AuthenticatedClient α × List HttpCall :=
  let call1 : HttpCall := { client := self.client, url := url, queries := queries }
  match http self.client url queries with
  | Except.error e => (Except.error (Error.RequestError e), self, [call1])
  | Except.ok response =>
    match check_auth response with
    | Except.error e => (Except.error e, self, [call1])
    | Except.ok true => (Except.ok response, self, [call1])
    | Except.ok false =>
      match A.login self.authenticator with
      | (Except.error e, auth1) =>
        (Except.error e, { self with authenticator := auth1 }, [call1])
      | (Except.ok _, auth1) =>
        match A.token auth1 with
        | none =>
          (Except.error (Error.AuthenticationError
            "Token was not set after logging in, but no error was returned. Report bug at https://github.com/Zower/snew"),
           { self with authenticator := auth1 }, [call1])
        | some token =>
          let client1 := make_client self.user_agent token.access_token
          let self1 : AuthenticatedClient α :=
            { self with client := client1, authenticator := auth1 }
          let call2 : HttpCall := { client := client1, url := url, queries := queries }
          match http client1 url queries with
          | Except.error e =>
            (Except.error (Error.RequestError e), self1, [call1, call2])
          | Except.ok response2 =>
            if response2.status == 200 then
              (Except.ok response2, self1, [call1, call2])
            else
              (Except.error (Error.AuthenticationError
                "Failed to authenticate, even after requesting new token. Check credentials."),
               self1, [call1, call2])

/-- Embeds `ClientInfo` (auth.rs lines 161-165). -/
structure ClientInfo where
  client_id : String
  client_secret : String
deriving DecidableEq, Repr

/-- Embeds `Credentials` (auth.rs lines 168-173). -/
structure Credentials where
  client_info : ClientInfo
  username : String
  password : String
deriving DecidableEq, Repr

/-- Embeds `ScriptAuthenticator` (auth.rs lines 191-195). -/
structure ScriptAuthenticator where
  creds : Credentials
  token : Option Token
deriving DecidableEq, Repr

/-- Embeds `ScriptAuthenticator::new` (auth.rs lines 198-200). -/
def ScriptAuthenticator.mk_new (creds : Credentials) : ScriptAuthenticator :=
  { creds := creds, token := none }

/-- Embeds `ApplicationAuthenticator` (auth.rs lines 263-267). -/
structure ApplicationAuthenticator where
  client_info : ClientInfo
  token : Option Token
deriving DecidableEq, Repr

/-- The outcome of the token-exchange POST (`send()` followed by `text()`):
either a transport error, or the HTTP status together with the body text. -/
inductive ExchangeOutcome where
  | failure (e : String)
  | ok (status : Nat) (text : String)
deriving DecidableEq, Repr

/-- Embeds `Authenticator::login for ScriptAuthenticator` (auth.rs lines 204-250).
`pT` and `pE` are the serde decode oracles: `pT text` models
`serde_json::from_str::<Token>(text)` and `pE text` models
`serde_json::from_str::<OkButError>(text)` (returning the `error` field).
Returns the `Result<()>` and the authenticator state after the call. -/
def ScriptAuthenticator.login (pT : String → Option Token)
    (pE : String → Option String) (exchange : ExchangeOutcome)
    (self : ScriptAuthenticator) : Except Error Unit × ScriptAuthenticator :=
  match exchange with
  | ExchangeOutcome.failure e => (Except.error (Error.RequestError e), self)
  | ExchangeOutcome.ok status text =>
    match pT text with
    | some token => (Except.ok (), { self with token := some token })
    | none =>
      match pE text with
      | some err =>
        (Except.error (Error.AuthenticationError
          ("Username or password are most likely wrong, Reddit returned: " ++ err)),
         self)
      | none =>
        if status == 401 then
          (Except.error (Error.AuthenticationError
            "Client ID or Secret are wrong. Reddit returned 401 Unauthorized"), self)
        else
          (Except.error (Error.AuthenticationError
            ("Unexpected error occured, text: " ++ text ++ ", code: " ++ toString status)),
           self)

/-- Embeds `Authenticator::login for ApplicationAuthenticator` (auth.rs lines 282-324);
the response handling is a verbatim duplicate of the script variant. -/
def ApplicationAuthenticator.login (pT : String → Option Token)
    (pE : String → Option String) (exchange : ExchangeOutcome)
    (self : ApplicationAuthenticator) : Except Error Unit × ApplicationAuthenticator :=
  match exchange with
  | ExchangeOutcome.failure e => (Except.error (Error.RequestError e), self)
  | ExchangeOutcome.ok status text =>
    match pT text with
    | some token => (Except.ok (), { self with token := some token })
    | none =>
      match pE text with
      | some err =>
        (Except.error (Error.AuthenticationError
          ("Username or password are most likely wrong, Reddit returned: " ++ err)),
         self)
      | none =>
        if status == 401 then
          (Except.error (Error.AuthenticationError
            "Client ID or Secret are wrong. Reddit returned 401 Unauthorized"), self)
        else
          (Except.error (Error.AuthenticationError
            ("Unexpected error occured, text: " ++ text ++ ", code: " ++ toString status)),
           self)

/-- Embeds `Authenticator::token for ScriptAuthenticator` (auth.rs lines 252-254). -/
def ScriptAuthenticator.tokenFn (self : ScriptAuthenticator) : Option Token :=
  self.token

/-- Embeds `Authenticator::token for ApplicationAuthenticator` (auth.rs lines 325-327). -/
def ApplicationAuthenticator.tokenFn (self : ApplicationAuthenticator) : Option Token :=
  self.token

/-- Embeds `raw::post::RawPostData` (things.rs lines 257-266). -/
structure RawPostData where
  title : String
  ups : Int
  downs : Int
  url : String
  author : String
  selftext : String
  id : String
deriving DecidableEq, Repr

/-- Embeds `raw::generic_kind::RawKind<RawPostData>` (things.rs lines 247-251). -/
structure RawKind where
  data : RawPostData
  kind : String
deriving DecidableEq, Repr

/-- Embeds `raw::Pagination` (things.rs lines 220-224). -/
structure Pagination where
  after : String
deriving DecidableEq, Repr

/-- Embeds `raw::listing::RawListingData<RawKind<RawPostData>>` (things.rs lines 236-241). -/
structure RawListingData where
  pagination : Pagination
  children : List RawKind
deriving DecidableEq, Repr

/-- Embeds `raw::listing::RawListing<RawKind<RawPostData>>` (things.rs lines 231-234). -/
structure RawListing where
  data : RawListingData
deriving DecidableEq, Repr

/-- A post (things.rs lines 54-72).  The `client` back-reference is not part of
the model: the interaction of the feed with the client is the fetch oracle. -/
structure Post where
  title : String
  ups : Int
  downs : Int
  url : String
  author : String
  selftext : String
  id : String
  kind : String
deriving DecidableEq, Repr

/-- Embeds `From<(RawKind<RawPostData>, &AuthenticatedClient)> for Post`
(things.rs lines 175-192), with the client reference dropped. -/
def Post.from (raw : RawKind) : Post :=
  { title := raw.data.title, ups := raw.data.ups, downs := raw.data.downs,
    url := raw.data.url, author := raw.data.author,
    selftext := raw.data.selftext, id := raw.data.id, kind := raw.kind }

/-- Embeds `PostFeed` (things.rs lines 88-99), minus the client reference (which is
the fetch oracle in the model).  `cached_posts` is the `Vec<Post>` buffer in
`Vec` order: `push`/`extend` append at the end, `pop` removes the last element. -/
structure PostFeed where
  limit : Int
  url : String
  cached_posts : List Post
  after : String
deriving DecidableEq, Repr

/-- The outcome, seen from `PostFeed::next`, of
`client.get(url, [(limit, after)])` followed by `response.text()` followed by
`serde_json::from_str::<RawListing<RawKind<RawPostData>>>`:
the three failure points of things.rs lines 116-127 plus success. -/
inductive FetchOutcome where
  | getFailure (e : Error)
  | textFailure (e : String)
  | parseFailure (e : String)
  | success (listing : RawListing)
deriving DecidableEq, Repr

/-- Embeds `Iterator::next for PostFeed` (things.rs lines 104-148).  `fetch` is the
oracle for the client request at the given `(url, limit, after)` triple.
Returns the yielded item (if any) and the feed state after the call. -/
def PostFeed.next (fetch : String → Int → String → FetchOutcome)
    (self : PostFeed) : Option (Except Error Post) × PostFeed :=
  match self.cached_posts.getLast? with
  | some post =>
    (some (Except.ok post), { self with cached_posts := self.cached_posts.dropLast })
  | none =>
    match fetch self.url self.limit self.after with
    | FetchOutcome.getFailure e => (some (Except.error e), self)
    | FetchOutcome.textFailure e =>
      (some (Except.error (Error.RequestError e)), self)
    | FetchOutcome.parseFailure e =>
      (some (Except.error (Error.APIParseError e)), self)
    | FetchOutcome.success listing =>
      let self1 : PostFeed := { self with after := listing.data.pagination.after }
      let buffer := self1.cached_posts ++ (listing.data.children.reverse.map Post.from)
      match buffer.getLast? with
      | some post =>
        (some (Except.ok post), { self1 with cached_posts := buffer.dropLast })
      | none => (none, { self1 with cached_posts := buffer })

/-- Embeds `Subreddit::posts_sorted` (things.rs lines 42-50): the initial feed state. -/
def posts_sorted (url path : String) : PostFeed :=
  { limit := 100, url := url ++ "/" ++ path, cached_posts := [], after := "" }

/-- Drive `PostFeed.next` for `n` calls against a server script: a list of
pages served in order, one per fetch.  While the buffer is non-empty the
oracle is never consulted (the feed pops); when it is empty the head page is
served and consumed.  Collects the yielded items. -/
def runFeed (pages : List RawListing) (self : PostFeed) :
    Nat → List (Except Error Post)
  | 0 => []
  | n + 1 =>
    if self.cached_posts.isEmpty then
      match pages with
      | [] => []
      | p :: rest =>
        let s := PostFeed.next (fun _ _ _ => FetchOutcome.success p) self
        s.1.toList ++ runFeed rest s.2 n
    else
      let s := PostFeed.next
        (fun _ _ _ => FetchOutcome.getFailure (Error.AuthenticationError "unreached"))
        self
      s.1.toList ++ runFeed pages s.2 n

/-! ## Behaviour of `PostFeed.next` -/

/-- Popping: with a non-empty buffer, `next` yields the last element of the buffer
and never consults the fetch oracle. -/
theorem PostFeed.next_pop (fetch : String → Int → String → FetchOutcome)
    (self : PostFeed) (l : List Post) (post : Post)
    (h : self.cached_posts = l ++ [post]) :
    PostFeed.next fetch self =
      (some (Except.ok post), { self with cached_posts := l }) := by
  simp [PostFeed.next, h]

/-- A successful fetch of a page with children `c :: cs` yields `Post.from c`,
overwrites the cursor, and leaves the remaining children buffered in reverse. -/
theorem PostFeed.next_success_cons (fetch : String → Int → String → FetchOutcome)
    (self : PostFeed) (listing : RawListing) (c : RawKind) (cs : List RawKind)
    (hbuf : self.cached_posts = [])
    (hf : fetch self.url self.limit self.after = FetchOutcome.success listing)
    (hc : listing.data.children = c :: cs) :
    PostFeed.next fetch self =
      (some (Except.ok (Post.from c)),
       { self with after := listing.data.pagination.after,
                   cached_posts := (cs.map Post.from).reverse }) := by
  have : (c :: cs).reverse.map Post.from =
      (cs.map Post.from).reverse ++ [Post.from c] := by
    simp [List.reverse_cons, List.map_reverse]
  simp [PostFeed.next, hbuf, hf, hc, this]

/-- A successful fetch of a page with no children yields nothing and only
overwrites the cursor. -/
theorem PostFeed.next_success_nil (fetch : String → Int → String → FetchOutcome)
    (self : PostFeed) (listing : RawListing)
    (hbuf : self.cached_posts = [])
    (hf : fetch self.url self.limit self.after = FetchOutcome.success listing)
    (hc : listing.data.children = []) :
    PostFeed.next fetch self =
      (none, { self with after := listing.data.pagination.after }) := by
  simp [PostFeed.next, hbuf, hf, hc]

/-- C2: for a page whose children arrive as `[a, b, c]`, the feed yields
`a`, `b`, `c` in that order; the buffer is populated with the posts in reverse
order (`[c, b, a]` as posts) and each call pops from the end of the buffer. -/
theorem postfeed_reversal_C2 (a b c : RawKind) (limit : Int) (url after nxt : String) :
    let listing : RawListing := { data := { pagination := { after := nxt },
                                            children := [a, b, c] } }
    let fetch := fun (_ : String) (_ : Int) (_ : String) => FetchOutcome.success listing
    let feed : PostFeed := { limit := limit, url := url, cached_posts := [], after := after }
    let s1 := PostFeed.next fetch feed
    let s2 := PostFeed.next fetch s1.2
    let s3 := PostFeed.next fetch s2.2
    listing.data.children.reverse.map Post.from =
        [Post.from c, Post.from b, Post.from a] ∧
    s1.1 = some (Except.ok (Post.from a)) ∧
    s1.2.cached_posts = [Post.from c, Post.from b, Post.from a].dropLast ∧
    s2.1 = some (Except.ok (Post.from b)) ∧
    s2.2.cached_posts = [Post.from c] ∧
    s3.1 = some (Except.ok (Post.from c)) ∧
    s3.2.cached_posts = [] := by
  simp [PostFeed.next]

/-- C3: whenever a call to `next` yields an error, the feed state after the
call equals the state before it — cursor, buffer, url and limit are untouched,
so the following call re-attempts the same page boundary. -/
theorem postfeed_error_preserves_state_C3
    (fetch : String → Int → String → FetchOutcome) (self : PostFeed)
    (h : ∃ e, (PostFeed.next fetch self).1 = some (Except.error e)) :
    (PostFeed.next fetch self).2 = self := by
  obtain ⟨e, he⟩ := h
  match hlast : self.cached_posts.getLast? with
  | some post => simp [PostFeed.next, hlast] at he
  | none =>
    match hf : fetch self.url self.limit self.after with
    | FetchOutcome.getFailure e' => simp [PostFeed.next, hlast, hf]
    | FetchOutcome.textFailure e' => simp [PostFeed.next, hlast, hf]
    | FetchOutcome.parseFailure e' => simp [PostFeed.next, hlast, hf]
    | FetchOutcome.success listing =>
      cases hc : listing.data.children with
      | nil => simp [PostFeed.next, hlast, hf, hc] at he
      | cons c cs => simp [PostFeed.next, hlast, hf, hc] at he

/-- Witness for C3 at a concrete feed and a failing transport. -/
theorem postfeed_error_preserves_state_C3_witness :
    (PostFeed.next (fun _ _ _ => FetchOutcome.getFailure (Error.RequestError "conn reset"))
      (posts_sorted "r/rust" "hot")).2 = posts_sorted "r/rust" "hot" :=
  postfeed_error_preserves_state_C3 _ _ ⟨Error.RequestError "conn reset", rfl⟩

/-- C9: fetching a page that decodes with zero children returns no item at all
from that `next` call (no second fetch happens within the call), yet the
cursor is overwritten with the trailing pagination token of the empty page, and the
buffer stays empty, so the following call fetches with the updated cursor. -/
theorem postfeed_empty_page_C9 (fetch : String → Int → String → FetchOutcome)
    (self : PostFeed) (listing : RawListing)
    (hbuf : self.cached_posts = [])
    (hf : fetch self.url self.limit self.after = FetchOutcome.success listing)
    (hc : listing.data.children = []) :
    PostFeed.next fetch self =
      (none, { self with after := listing.data.pagination.after }) ∧
    (PostFeed.next fetch self).2.cached_posts = [] ∧
    (PostFeed.next fetch self).2.after = listing.data.pagination.after := by
  have h := PostFeed.next_success_nil fetch self listing hbuf hf hc
  refine ⟨h, ?_, ?_⟩ <;> simp [h, hbuf]

/-- Witness for C9: an empty page with trailing cursor `"t3_end"`. -/
theorem postfeed_empty_page_C9_witness :
    PostFeed.next
        (fun _ _ _ => FetchOutcome.success
          { data := { pagination := { after := "t3_end" }, children := [] } })
        (posts_sorted "r/rust" "new") =
      (none, { posts_sorted "r/rust" "new" with after := "t3_end" }) :=
  (postfeed_empty_page_C9 _ _ _ rfl rfl rfl).1

/-- Number of children over a sequence of pages: exactly the number of `next`
calls needed to consume them when every page is non-empty. -/
def totalItems : List RawListing → Nat
  | [] => 0
  | p :: rest => p.data.children.length + totalItems rest

/-- All children of a sequence of pages, page by page in order, each converted
to a `Post`: the sequence C1 expects the feed to yield. -/
def pagesPosts : List RawListing → List Post
  | [] => []
  | p :: rest => p.data.children.map Post.from ++ pagesPosts rest

/-- Draining: a feed whose buffer holds `l` spends the next `l.length` calls
popping `l` from the end (yielding `l.reverse`) before any page is consumed. -/
theorem runFeed_drain (l : List Post) :
    ∀ (pages : List RawListing) (self : PostFeed) (n : Nat),
    self.cached_posts = l →
    runFeed pages self (l.length + n) =
      l.reverse.map Except.ok ++ runFeed pages { self with cached_posts := [] } n := by
  induction l using List.reverseRecOn with
  | nil =>
    intro pages self n h
    have hself : { self with cached_posts := ([] : List Post) } = self := by
      cases self
      simp_all
    simp [hself]
  | append_singleton l a ih =>
    intro pages self n h
    have hn : (l ++ [a]).length + n = (l.length + n) + 1 := by
      simp
      omega
    rw [hn]
    simp only [runFeed]
    have hne : self.cached_posts.isEmpty = false := by
      simp [h]
    simp only [hne, Bool.false_eq_true, if_false]
    rw [PostFeed.next_pop _ self l a h]
    simp only [Option.toList_some]
    rw [ih pages { self with cached_posts := l } n rfl]
    simp

/-- C1: starting from an empty buffer, for any non-empty sequence of pages
each with non-empty children, driving the feed through `next` yields every
child of every page exactly once — in the per-page order of the server, pages in
fetch order (`pagesPosts`), every item as `Except.ok` — with a page only
fetched once the items of the previous pages are exhausted (`runFeed` consults the
server script only on an empty buffer). -/
theorem postfeed_pages_in_order_C1 (pages : List RawListing) (limit : Int)
    (url after : String) (_hpages : pages ≠ [])
    (hne : ∀ p ∈ pages, p.data.children ≠ []) :
    runFeed pages { limit := limit, url := url, cached_posts := [], after := after }
        (totalItems pages) =
      (pagesPosts pages).map Except.ok := by
  clear _hpages
  induction pages generalizing after with
  | nil => simp [totalItems, pagesPosts, runFeed]
  | cons p rest ih =>
    obtain ⟨c, cs, hc⟩ : ∃ c cs, p.data.children = c :: cs := by
      cases hpc : p.data.children with
      | nil => exact absurd hpc (hne p (by simp))
      | cons c cs => exact ⟨c, cs, rfl⟩
    have hlen : totalItems (p :: rest) = (cs.length + totalItems rest) + 1 := by
      simp [totalItems, hc]
      omega
    rw [hlen]
    simp only [runFeed, List.isEmpty_nil, if_true]
    rw [PostFeed.next_success_cons _ _ p c cs rfl rfl hc]
    have hdlen : cs.length + totalItems rest =
        ((cs.map Post.from).reverse).length + totalItems rest := by
      simp
    simp only [Option.toList_some]
    rw [hdlen, runFeed_drain ((cs.map Post.from).reverse) rest _ (totalItems rest) rfl]
    have hrest := ih (p.data.pagination.after) (fun q hq => hne q (List.mem_cons_of_mem p hq))
    simp [pagesPosts, hc, hrest]

/-- Witness for C1: two concrete pages with two and one children. -/
theorem postfeed_pages_in_order_C1_witness :
    let mkRaw := fun (i : String) =>
      ({ data := { title := i, ups := 1, downs := 0, url := "u", author := "a",
                   selftext := "", id := i }, kind := "t3" } : RawKind)
    let p1 : RawListing :=
      { data := { pagination := { after := "t3_2" },
                  children := [mkRaw "1", mkRaw "2"] } }
    let p2 : RawListing :=
      { data := { pagination := { after := "" }, children := [mkRaw "3"] } }
    ([p1, p2] ≠ ([] : List RawListing)) ∧
    (∀ p ∈ [p1, p2], p.data.children ≠ []) ∧
    runFeed [p1, p2]
        { limit := 2, url := "r/rust/hot", cached_posts := [], after := "" }
        (totalItems [p1, p2]) =
      (pagesPosts [p1, p2]).map Except.ok :=
  ⟨by decide, by decide,
   postfeed_pages_in_order_C1 _ 2 "r/rust/hot" "" (by decide) (by decide)⟩

/-! ## Behaviour of `AuthenticatedClient` -/

/-- C4: when the first GET comes back 401 or 403 and re-login succeeds with a
fresh token, `get` rebuilds the shared transport from that token and re-issues
the same GET (same client-visible url and queries) exactly once — the trace
has exactly two calls and no third attempt.  If the second response is 200 the
call returns it; any other second status (including another 401/403) fails
with the check-credentials authentication error. -/
theorem authenticated_client_retry_C4 {α : Type} (A : Authenticator α)
    (http : Client → String → Option (List (String × String)) → Except String Response)
    (self : AuthenticatedClient α) (url : String)
    (queries : Option (List (String × String))) (r1 r2 : Response) (auth1 : α)
    (tok : Token)
    (h1 : http self.client url queries = Except.ok r1)
    (hchal : r1.status = 401 ∨ r1.status = 403)
    (hlogin : A.login self.authenticator = (Except.ok (), auth1))
    (htok : A.token auth1 = some tok)
    (h2 : http (make_client self.user_agent tok.access_token) url queries = Except.ok r2) :
    (AuthenticatedClient.get A http self url queries).2.2 =
      [{ client := self.client, url := url, queries := queries },
       { client := make_client self.user_agent tok.access_token, url := url,
         queries := queries }] ∧
    (AuthenticatedClient.get A http self url queries).2.1.client =
      make_client self.user_agent tok.access_token ∧
    (AuthenticatedClient.get A http self url queries).2.1.authenticator = auth1 ∧
    (r2.status = 200 →
      (AuthenticatedClient.get A http self url queries).1 = Except.ok r2) ∧
    (r2.status ≠ 200 →
      (AuthenticatedClient.get A http self url queries).1 =
        Except.error (Error.AuthenticationError
          "Failed to authenticate, even after requesting new token. Check credentials.")) := by
  have hca : check_auth r1 = Except.ok false := by
    cases hchal with
    | inl h => simp [check_auth, h]
    | inr h => simp [check_auth, h]
  by_cases h200 : r2.status = 200 <;>
    simp [AuthenticatedClient.get, h1, hca, hlogin, htok, h2, h200]

/-- Witness for C4 at a concrete authenticator, transport oracle and responses. -/
theorem authenticated_client_retry_C4_witness :
    let tok : Token := { access_token := "fresh", expires_in := 3600,
                         scope := "*", token_type := "bearer" }
    let A : Authenticator Unit :=
      { login := fun _ => (Except.ok (), ()), token := fun _ => some tok,
        is_user := fun _ => true }
    let stale : Client := make_client "agent" "stale"
    let self : AuthenticatedClient Unit :=
      { client := stale, authenticator := (), user_agent := "agent" }
    let r1 : Response := { status := 401, body := "" }
    let r2 : Response := { status := 200, body := "page" }
    let http := fun (c : Client) (_ : String)
        (_ : Option (List (String × String))) =>
      if c = stale then Except.ok r1 else Except.ok r2
    (AuthenticatedClient.get A http self "r/rust/hot" none).1 = Except.ok r2 ∧
    (AuthenticatedClient.get A http self "r/rust/hot" none).2.1.client =
      make_client "agent" "fresh" ∧
    (AuthenticatedClient.get A http self "r/rust/hot" none).2.2 =
      [{ client := stale, url := "r/rust/hot", queries := none },
       { client := make_client "agent" "fresh", url := "r/rust/hot", queries := none }] := by
  intro tok A stale self r1 r2 http
  have h := authenticated_client_retry_C4 A http self "r/rust/hot" none r1 r2 () tok
    rfl (Or.inl rfl) rfl rfl rfl
  exact ⟨h.2.2.2.1 rfl, h.2.1, h.1⟩

/-- C5: when the first GET returns a status other than 200/401/403, `get`
fails at once with the authentication error naming the unexpected code, with
no re-login and no second GET (the trace has exactly the one call, and the
state is untouched); `check_auth` classifies 200 as success and 401/403 as an
authentication challenge. -/
theorem authenticated_client_unexpected_status_C5 {α : Type} (A : Authenticator α)
    (http : Client → String → Option (List (String × String)) → Except String Response)
    (self : AuthenticatedClient α) (url : String)
    (queries : Option (List (String × String))) (r1 : Response)
    (h1 : http self.client url queries = Except.ok r1)
    (hs200 : r1.status ≠ 200) (hs401 : r1.status ≠ 401) (hs403 : r1.status ≠ 403) :
    AuthenticatedClient.get A http self url queries =
      (Except.error (Error.AuthenticationError
        ("Reddit returned an unexpected code: " ++ toString r1.status)),
       self, [{ client := self.client, url := url, queries := queries }]) ∧
    (∀ r : Response, r.status = 200 → check_auth r = Except.ok true) ∧
    (∀ r : Response, r.status = 401 ∨ r.status = 403 → check_auth r = Except.ok false) := by
  refine ⟨?_, ?_, ?_⟩
  · simp [AuthenticatedClient.get, h1, check_auth, hs200, hs401, hs403]
  · intro r hr
    simp [check_auth, hr]
  · intro r hr
    cases hr with
    | inl h => simp [check_auth, h]
    | inr h => simp [check_auth, h]

/-- Witness for C5 at status 500. -/
theorem authenticated_client_unexpected_status_C5_witness :
    let A : Authenticator Unit :=
      { login := fun _ => (Except.ok (), ()), token := fun _ => none,
        is_user := fun _ => false }
    let self : AuthenticatedClient Unit :=
      { client := make_client "agent" "tok", authenticator := (), user_agent := "agent" }
    let http := fun (_ : Client) (_ : String)
        (_ : Option (List (String × String))) =>
      Except.ok ({ status := 500, body := "oops" } : Response)
    AuthenticatedClient.get A http self "r/rust/hot" none =
      (Except.error (Error.AuthenticationError "Reddit returned an unexpected code: 500"),
       self, [{ client := self.client, url := "r/rust/hot", queries := none }]) := by
  intro A self http
  exact (authenticated_client_unexpected_status_C5 A http self "r/rust/hot" none
    { status := 500, body := "oops" } rfl (by decide) (by decide) (by decide)).1

/-- C8: `AuthenticatedClient::new` first logs in; a login error aborts
construction with that error; login success with no token aborts with the
defensive authentication error; otherwise the client is built with a transport
whose default headers carry the bearer authorization derived from the token. -/
theorem authenticated_client_new_C8 {α : Type} (A : Authenticator α) (a0 : α)
    (user_agent : String) :
    (∀ (e : Error) (a1 : α), A.login a0 = (Except.error e, a1) →
      AuthenticatedClient.new A a0 user_agent = Except.error e) ∧
    (∀ a1 : α, A.login a0 = (Except.ok (), a1) → A.token a1 = none →
      AuthenticatedClient.new A a0 user_agent =
        Except.error (Error.AuthenticationError
          "Token was not set after logging in, but no error was returned. Report bug at https://github.com/Zower/snew")) ∧
    (∀ (a1 : α) (t : Token), A.login a0 = (Except.ok (), a1) → A.token a1 = some t →
      AuthenticatedClient.new A a0 user_agent =
        Except.ok { client := make_client user_agent t.access_token,
                    authenticator := a1, user_agent := user_agent } ∧
      make_client user_agent t.access_token =
        { user_agent := user_agent, bearer := "bearer " ++ t.access_token }) := by
  refine ⟨?_, ?_, ?_⟩
  · intro e a1 h
    simp [AuthenticatedClient.new, h]
  · intro a1 hl ht
    simp [AuthenticatedClient.new, hl, ht]
  · intro a1 t hl ht
    exact ⟨by simp [AuthenticatedClient.new, hl, ht], rfl⟩

/-- Witness for C8: all three construction outcomes at concrete authenticators. -/
theorem authenticated_client_new_C8_witness :
    let tok : Token := { access_token := "tk", expires_in := 60,
                         scope := "*", token_type := "bearer" }
    let Afail : Authenticator Unit :=
      { login := fun a => (Except.error (Error.RequestError "dns"), a),
        token := fun _ => none, is_user := fun _ => false }
    let Anone : Authenticator Unit :=
      { login := fun _ => (Except.ok (), ()), token := fun _ => none,
        is_user := fun _ => false }
    let Aok : Authenticator Unit :=
      { login := fun _ => (Except.ok (), ()), token := fun _ => some tok,
        is_user := fun _ => true }
    AuthenticatedClient.new Afail () "agent" =
      Except.error (Error.RequestError "dns") ∧
    AuthenticatedClient.new Anone () "agent" =
      Except.error (Error.AuthenticationError
        "Token was not set after logging in, but no error was returned. Report bug at https://github.com/Zower/snew") ∧
    AuthenticatedClient.new Aok () "agent" =
      Except.ok { client := { user_agent := "agent", bearer := "bearer tk" },
                  authenticator := (), user_agent := "agent" } := by
  intro tok Afail Anone Aok
  refine ⟨(authenticated_client_new_C8 Afail () "agent").1 _ () rfl,
          (authenticated_client_new_C8 Anone () "agent").2.1 () rfl rfl, ?_⟩
  have h := ((authenticated_client_new_C8 Aok () "agent").2.2 () tok rfl rfl).1
  simpa [make_client] using h

/-! ## Behaviour of `login` for the two authenticator variants -/

/-- C6: for both authenticator variants, an HTTP 200 token-exchange response
whose body decodes as the embedded-error shape with error `"invalid_grant"`
(and not as a `Token`) makes `login` fail with an authentication error whose
message contains `"invalid_grant"` — status 200 alone is not success. -/
theorem login_embedded_error_C6 (pT : String → Option Token)
    (pE : String → Option String) (text : String)
    (sa : ScriptAuthenticator) (aa : ApplicationAuthenticator)
    (hT : pT text = none) (hE : pE text = some "invalid_grant") :
    ScriptAuthenticator.login pT pE (ExchangeOutcome.ok 200 text) sa =
      (Except.error (Error.AuthenticationError
        "Username or password are most likely wrong, Reddit returned: invalid_grant"), sa) ∧
    ApplicationAuthenticator.login pT pE (ExchangeOutcome.ok 200 text) aa =
      (Except.error (Error.AuthenticationError
        "Username or password are most likely wrong, Reddit returned: invalid_grant"), aa) ∧
    (∃ pre post : String,
      "Username or password are most likely wrong, Reddit returned: invalid_grant" =
        pre ++ "invalid_grant" ++ post) := by
  refine ⟨?_, ?_, "Username or password are most likely wrong, Reddit returned: ", "", by decide⟩
  · simp [ScriptAuthenticator.login, hT, hE]
  · simp [ApplicationAuthenticator.login, hT, hE]

/-- Witness for C6 at the literal body, with the serde decode outcomes on that
body supplied as concrete oracles (the body decodes as `OkButError`, not as a
`Token`, since the `Token` fields are absent). -/
theorem login_embedded_error_C6_witness :
    let body := "\x7b\"error\": \"invalid_grant\"\x7d"
    let pT := fun (_ : String) => (none : Option Token)
    let pE := fun (s : String) =>
      if s = body then some "invalid_grant" else none
    let sa : ScriptAuthenticator :=
      { creds := { client_info := { client_id := "id", client_secret := "sec" },
                   username := "user", password := "pw" }, token := none }
    let aa : ApplicationAuthenticator :=
      { client_info := { client_id := "id", client_secret := "sec" }, token := none }
    ScriptAuthenticator.login pT pE (ExchangeOutcome.ok 200 body) sa =
      (Except.error (Error.AuthenticationError
        "Username or password are most likely wrong, Reddit returned: invalid_grant"), sa) ∧
    ApplicationAuthenticator.login pT pE (ExchangeOutcome.ok 200 body) aa =
      (Except.error (Error.AuthenticationError
        "Username or password are most likely wrong, Reddit returned: invalid_grant"), aa) := by
  intro body pT pE sa aa
  have h := login_embedded_error_C6 pT pE body sa aa rfl rfl
  exact ⟨h.1, h.2.1⟩

/-- C7: for both variants, a token-exchange response with HTTP 401 whose body
decodes neither as a `Token` nor as the embedded-error shape makes `login`
fail with the error naming invalid client id/secret (bad application
credentials, as opposed to the bad-user-credentials message of the embedded
branch); and the three shapes are tried in order — a body decoding as a
`Token` wins regardless of status, else an embedded-error body wins regardless
of status (even 401), and only then is the 401 check consulted. -/
theorem login_unauthorized_C7 (pT : String → Option Token)
    (pE : String → Option String) (text : String) (status : Nat)
    (sa : ScriptAuthenticator) (aa : ApplicationAuthenticator) :
    (∀ t : Token, pT text = some t →
      ScriptAuthenticator.login pT pE (ExchangeOutcome.ok status text) sa =
        (Except.ok (), { sa with token := some t }) ∧
      ApplicationAuthenticator.login pT pE (ExchangeOutcome.ok status text) aa =
        (Except.ok (), { aa with token := some t })) ∧
    (∀ e : String, pT text = none → pE text = some e →
      ScriptAuthenticator.login pT pE (ExchangeOutcome.ok status text) sa =
        (Except.error (Error.AuthenticationError
          ("Username or password are most likely wrong, Reddit returned: " ++ e)), sa) ∧
      ApplicationAuthenticator.login pT pE (ExchangeOutcome.ok status text) aa =
        (Except.error (Error.AuthenticationError
          ("Username or password are most likely wrong, Reddit returned: " ++ e)), aa)) ∧
    (pT text = none → pE text = none →
      ScriptAuthenticator.login pT pE (ExchangeOutcome.ok 401 text) sa =
        (Except.error (Error.AuthenticationError
          "Client ID or Secret are wrong. Reddit returned 401 Unauthorized"), sa) ∧
      ApplicationAuthenticator.login pT pE (ExchangeOutcome.ok 401 text) aa =
        (Except.error (Error.AuthenticationError
          "Client ID or Secret are wrong. Reddit returned 401 Unauthorized"), aa)) := by
  refine ⟨?_, ?_, ?_⟩
  · intro t hT
    constructor <;> simp [ScriptAuthenticator.login, ApplicationAuthenticator.login, hT]
  · intro e hT hE
    constructor <;>
      simp [ScriptAuthenticator.login, ApplicationAuthenticator.login, hT, hE]
  · intro hT hE
    constructor <;>
      simp [ScriptAuthenticator.login, ApplicationAuthenticator.login, hT, hE]

/-- Witness for C7: a 401 exchange whose body decodes as nothing. -/
theorem login_unauthorized_C7_witness :
    let pT := fun (_ : String) => (none : Option Token)
    let pE := fun (_ : String) => (none : Option String)
    let sa : ScriptAuthenticator :=
      { creds := { client_info := { client_id := "id", client_secret := "sec" },
                   username := "user", password := "pw" }, token := none }
    let aa : ApplicationAuthenticator :=
      { client_info := { client_id := "id", client_secret := "sec" }, token := none }
    ScriptAuthenticator.login pT pE (ExchangeOutcome.ok 401 "") sa =
      (Except.error (Error.AuthenticationError
        "Client ID or Secret are wrong. Reddit returned 401 Unauthorized"), sa) ∧
    ApplicationAuthenticator.login pT pE (ExchangeOutcome.ok 401 "") aa =
      (Except.error (Error.AuthenticationError
        "Client ID or Secret are wrong. Reddit returned 401 Unauthorized"), aa) :=
  (login_unauthorized_C7 _ _ "" 401 _ _).2.2 rfl rfl

/-- C10: for both variants, every failing `login` leaves the authenticator
state (in particular its stored token) exactly as before the call; the stored
token is replaced exactly when the body decodes as a valid `Token`, in which
case `login` succeeds and `token()` afterwards returns the new token. -/
theorem login_token_update_C10 (pT : String → Option Token)
    (pE : String → Option String) (exchange : ExchangeOutcome)
    (sa : ScriptAuthenticator) (aa : ApplicationAuthenticator) :
    (∀ (e : Error) (sa1 : ScriptAuthenticator),
      ScriptAuthenticator.login pT pE exchange sa = (Except.error e, sa1) → sa1 = sa) ∧
    (∀ (e : Error) (aa1 : ApplicationAuthenticator),
      ApplicationAuthenticator.login pT pE exchange aa = (Except.error e, aa1) → aa1 = aa) ∧
    (∀ (status : Nat) (text : String) (t : Token),
      exchange = ExchangeOutcome.ok status text → pT text = some t →
      ScriptAuthenticator.login pT pE exchange sa = (Except.ok (), { sa with token := some t }) ∧
      ScriptAuthenticator.tokenFn { sa with token := some t } = some t ∧
      ApplicationAuthenticator.login pT pE exchange aa =
        (Except.ok (), { aa with token := some t }) ∧
      ApplicationAuthenticator.tokenFn { aa with token := some t } = some t) ∧
    (∀ sa1 : ScriptAuthenticator,
      ScriptAuthenticator.login pT pE exchange sa = (Except.ok (), sa1) →
      ∃ (status : Nat) (text : String) (t : Token),
        exchange = ExchangeOutcome.ok status text ∧ pT text = some t ∧
        sa1 = { sa with token := some t }) ∧
    (∀ aa1 : ApplicationAuthenticator,
      ApplicationAuthenticator.login pT pE exchange aa = (Except.ok (), aa1) →
      ∃ (status : Nat) (text : String) (t : Token),
        exchange = ExchangeOutcome.ok status text ∧ pT text = some t ∧
        aa1 = { aa with token := some t }) := by
  refine ⟨?_, ?_, ?_, ?_, ?_⟩
  · intro e sa1 h
    cases exchange with
    | failure msg =>
      simp [ScriptAuthenticator.login] at h
      exact h.2.symm
    | ok status text =>
      cases hT : pT text with
      | some t => simp [ScriptAuthenticator.login, hT] at h
      | none =>
        cases hE : pE text with
        | some msg =>
          simp [ScriptAuthenticator.login, hT, hE] at h
          exact h.2.symm
        | none =>
          by_cases h401 : status = 401 <;>
            simp [ScriptAuthenticator.login, hT, hE, h401] at h <;>
            exact h.2.symm
  · intro e aa1 h
    cases exchange with
    | failure msg =>
      simp [ApplicationAuthenticator.login] at h
      exact h.2.symm
    | ok status text =>
      cases hT : pT text with
      | some t => simp [ApplicationAuthenticator.login, hT] at h
      | none =>
        cases hE : pE text with
        | some msg =>
          simp [ApplicationAuthenticator.login, hT, hE] at h
          exact h.2.symm
        | none =>
          by_cases h401 : status = 401 <;>
            simp [ApplicationAuthenticator.login, hT, hE, h401] at h <;>
            exact h.2.symm
  · intro status text t hx hT
    subst hx
    exact ⟨by simp [ScriptAuthenticator.login, hT], rfl,
           by simp [ApplicationAuthenticator.login, hT], rfl⟩
  · intro sa1 h
    cases exchange with
    | failure msg => simp [ScriptAuthenticator.login] at h
    | ok status text =>
      cases hT : pT text with
      | some t =>
        refine ⟨status, text, t, rfl, hT, ?_⟩
        simp [ScriptAuthenticator.login, hT] at h
        exact h.symm
      | none =>
        cases hE : pE text with
        | some msg => simp [ScriptAuthenticator.login, hT, hE] at h
        | none =>
          by_cases h401 : status = 401 <;>
            simp [ScriptAuthenticator.login, hT, hE, h401] at h
  · intro aa1 h
    cases exchange with
    | failure msg => simp [ApplicationAuthenticator.login] at h
    | ok status text =>
      cases hT : pT text with
      | some t =>
        refine ⟨status, text, t, rfl, hT, ?_⟩
        simp [ApplicationAuthenticator.login, hT] at h
        exact h.symm
      | none =>
        cases hE : pE text with
        | some msg => simp [ApplicationAuthenticator.login, hT, hE] at h
        | none =>
          by_cases h401 : status = 401 <;>
            simp [ApplicationAuthenticator.login, hT, hE, h401] at h

/-- Witness for C10: a failing login (embedded error) preserves the token, a
succeeding one stores the decoded token. -/
theorem login_token_update_C10_witness :
    let oldTok : Token := { access_token := "old", expires_in := 60,
                            scope := "*", token_type := "bearer" }
    let newTok : Token := { access_token := "new", expires_in := 3600,
                            scope := "*", token_type := "bearer" }
    let sa : ScriptAuthenticator :=
      { creds := { client_info := { client_id := "id", client_secret := "sec" },
                   username := "user", password := "pw" }, token := some oldTok }
    let aa : ApplicationAuthenticator :=
      { client_info := { client_id := "id", client_secret := "sec" },
        token := some oldTok }
    let pEfail := fun (_ : String) => some "invalid_grant"
    let pTok := fun (s : String) => if s = "tokenbody" then some newTok else none
    ((ScriptAuthenticator.login (fun _ => none) pEfail (ExchangeOutcome.ok 200 "x") sa).2 = sa) ∧
    (ScriptAuthenticator.login pTok (fun _ => none) (ExchangeOutcome.ok 200 "tokenbody") sa =
      (Except.ok (), { sa with token := some newTok }) ∧
     ScriptAuthenticator.tokenFn { sa with token := some newTok } = some newTok ∧
     ApplicationAuthenticator.login pTok (fun _ => none) (ExchangeOutcome.ok 200 "tokenbody") aa =
      (Except.ok (), { aa with token := some newTok }) ∧
     ApplicationAuthenticator.tokenFn { aa with token := some newTok } = some newTok) := by
  intro oldTok newTok sa aa pEfail pTok
  refine ⟨?_, (login_token_update_C10 pTok (fun _ => none)
    (ExchangeOutcome.ok 200 "tokenbody") sa aa).2.2.1 200 "tokenbody" newTok rfl rfl⟩
  have h := (login_token_update_C10 (fun _ => none) pEfail
    (ExchangeOutcome.ok 200 "x") sa aa).1
  exact h (Error.AuthenticationError
    "Username or password are most likely wrong, Reddit returned: invalid_grant") _ rfl

end Snew
